import Mathlib

/-!
Shallow embedding of `src/shadowbox/server/shared_metrics.ts` from the
outline-server repository: the shared-metrics data model, the sanctioned-country
and zero-usage filtering policy, the hourly/daily tick bodies of
`OutlineSharedMetricsPublisher`, and the `RestMetricsCollectorClient` transport.

Conventions of the embedding:
* timestamps and byte counts are `Nat` (the source produces non-negative
  integers via `Date.now()` and `Math.round(parseFloat(...))`);
* the injected identity mapping `toMetricsId` is a `String → Option String`
  (`none` models a JavaScript `undefined` result, collapsed to `""` by the
  source's `|| ''`);
* asynchronous collaborators (the usage fetch and the collector delivery) are
  passed in as `Except` values describing how the awaited promise settles, and
  a tick is a pure function from those outcomes to a new publisher state plus
  the ordered list of observable calls it makes.
-/

namespace SharedMetrics

/-- Embeds `SANCTIONED_COUNTRIES = new Set(['CU', 'KP', 'SY'])`. -/
def SANCTIONED_COUNTRIES : List String := ["CU", "KP", "SY"]

/-- Embeds the `KeyUsage` record used internally to track key usage. -/
structure KeyUsage where
  accessKeyId : String
  countries : List String
  inboundBytes : Nat
deriving DecidableEq

/-- Embeds `HourlyUserMetricsReportJson`. -/
structure HourlyUserMetricsReportJson where
  userId : String
  countries : List String
  bytesTransferred : Nat
deriving DecidableEq

/-- Embeds `HourlyServerMetricsReportJson`. -/
structure HourlyServerMetricsReportJson where
  serverId : String
  startUtcMs : Nat
  endUtcMs : Nat
  userReports : List HourlyUserMetricsReportJson
deriving DecidableEq

/-- Embeds `DailyDataLimitMetricsReportJson`. -/
structure DailyDataLimitMetricsReportJson where
  enabled : Bool
deriving DecidableEq

/-- Embeds `DailyFeatureMetricsReportJson`. -/
structure DailyFeatureMetricsReportJson where
  serverId : String
  serverVersion : String
  timestampUtcMs : Nat
  dataLimit : DailyDataLimitMetricsReportJson
deriving DecidableEq

/-- The fields of the persisted `ServerConfigJson` that `shared_metrics.ts`
reads or writes: `serverId`, the opt-in flag `metricsEnabled` (absent =
`none`), and `accessKeyDataLimit` (modelled by its configured byte value,
`none` when absent; the source only tests its truthiness with `!!`). -/
structure ServerConfigJson where
  serverId : String
  metricsEnabled : Option Bool
  accessKeyDataLimit : Option Nat
deriving DecidableEq

/-- Embeds `hasSanctionedCountry`: true when some listed country is in
`SANCTIONED_COUNTRIES`. -/
def hasSanctionedCountry (countries : List String) : Bool :=
  countries.any (fun country => SANCTIONED_COUNTRIES.contains country)

/-- Embeds `isSharingEnabled()`: `this.serverConfig.data().metricsEnabled || false`
(an absent flag collapses to `false`). -/
def isSharingEnabled (cfg : ServerConfigJson) : Bool :=
  cfg.metricsEnabled.getD false

/-- Embeds `startSharing()`: sets `metricsEnabled = true` in the persisted config. -/
def startSharing (cfg : ServerConfigJson) : ServerConfigJson :=
  { cfg with metricsEnabled := some true }

/-- Embeds `stopSharing()`: sets `metricsEnabled = false` in the persisted config. -/
def stopSharing (cfg : ServerConfigJson) : ServerConfigJson :=
  { cfg with metricsEnabled := some false }

/-- One entry pushed by the loop body of `reportServerUsageMetrics`:
`userId` is `this.toMetricsId(keyUsage.accessKeyId) || ''`, and the country
list is copied. -/
def toUserReport (toMetricsId : String → Option String) (ku : KeyUsage) :
    HourlyUserMetricsReportJson :=
  { userId := (toMetricsId ku.accessKeyId).getD ""
    countries := ku.countries
    bytesTransferred := ku.inboundBytes }

/-- Embeds the filtering loop of `reportServerUsageMetrics`: entries with
`inboundBytes === 0` are skipped, entries with `hasSanctionedCountry` are
skipped, every other entry is pushed. -/
def buildUserReports (toMetricsId : String → Option String) :
    List KeyUsage → List HourlyUserMetricsReportJson
  | [] => []
  | ku :: rest =>
    if ku.inboundBytes = 0 then buildUserReports toMetricsId rest
    else if hasSanctionedCountry ku.countries then buildUserReports toMetricsId rest
    else toUserReport toMetricsId ku :: buildUserReports toMetricsId rest

/-- The publisher's internal mutable state: the report window cursor
`reportStartTimestampMs`. -/
structure PublisherState where
  reportStartTimestampMs : Nat
deriving DecidableEq

/-- Result of one run of `reportServerUsageMetrics` up to (but not including)
the awaited delivery: the updated window cursor, the report that was built, and
whether `collectServerUsageMetrics` is reached (`userReports.length !== 0`). -/
structure UsageReportStep where
  newState : PublisherState
  report : HourlyServerMetricsReportJson
  deliveryAttempted : Bool
deriving DecidableEq

/-- Embeds `reportServerUsageMetrics(usageMetrics)`: takes `reportEndTimestampMs`
from the clock (`now`), builds `userReports` by the filtering loop, assembles the
report with the current cursor as `startUtcMs`, then advances the cursor to
`reportEndTimestampMs` before the early return / delivery await. -/
def reportServerUsageMetrics (cfg : ServerConfigJson)
    (toMetricsId : String → Option String) (st : PublisherState) (now : Nat)
    (usageMetrics : List KeyUsage) : UsageReportStep :=
  let userReports := buildUserReports toMetricsId usageMetrics
  { newState := { reportStartTimestampMs := now }
    report :=
      { serverId := cfg.serverId
        startUtcMs := st.reportStartTimestampMs
        endUtcMs := now
        userReports := userReports }
    deliveryAttempted := !userReports.isEmpty }

/-- The observable calls a timer tick can make on its collaborators, in order. -/
inductive Action where
  | getUsage : Action
  | collectServerUsageMetrics : HourlyServerMetricsReportJson → Action
  | resetUsage : Action
  | collectFeatureMetrics : DailyFeatureMetricsReportJson → Action
deriving DecidableEq

/-- True exactly for a `collectServerUsageMetrics` delivery call. -/
def Action.isCollectServerUsage : Action → Bool
  | Action.collectServerUsageMetrics _ => true
  | _ => false

/-- Outcome of one timer tick: the publisher state afterwards and the ordered
observable calls that were made. -/
structure TickResult where
  newState : PublisherState
  actions : List Action
deriving DecidableEq

/-- Embeds the hourly timer callback installed in the constructor:
if `isSharingEnabled()` is false the tick returns at once; otherwise it awaits
`usageMetrics.getUsage()` (outcome `fetch`), runs `reportServerUsageMetrics`
(whose delivery, when attempted, settles as `deliver`), and calls
`usageMetrics.reset()` only if no exception was thrown before that line; any
rejection is caught and logged. -/
def hourlyTick (cfg : ServerConfigJson) (toMetricsId : String → Option String)
    (st : PublisherState) (now : Nat) (fetch : Except String (List KeyUsage))
    (deliver : Except String Unit) : TickResult :=
  if isSharingEnabled cfg then
    match fetch with
    | Except.error _ => { newState := st, actions := [Action.getUsage] }
    | Except.ok usage =>
      let step := reportServerUsageMetrics cfg toMetricsId st now usage
      if step.deliveryAttempted then
        match deliver with
        | Except.error _ =>
          { newState := step.newState
            actions := [Action.getUsage, Action.collectServerUsageMetrics step.report] }
        | Except.ok _ =>
          { newState := step.newState
            actions := [Action.getUsage, Action.collectServerUsageMetrics step.report,
                        Action.resetUsage] }
      else
        { newState := step.newState
          actions := [Action.getUsage, Action.resetUsage] }
  else { newState := st, actions := [] }

/-- Embeds `reportFeatureMetrics()`: a point-in-time feature snapshot; `ver` is
the `version` string imported from `package.json`, and `dataLimit.enabled` is
`!!this.serverConfig.data().accessKeyDataLimit`. -/
def reportFeatureMetrics (cfg : ServerConfigJson) (ver : String) (now : Nat) :
    DailyFeatureMetricsReportJson :=
  { serverId := cfg.serverId
    serverVersion := ver
    timestampUtcMs := now
    dataLimit := { enabled := cfg.accessKeyDataLimit.isSome } }

/-- Embeds the daily timer callback installed in the constructor: a no-op when
sharing is disabled, otherwise one `collectFeatureMetrics` delivery. -/
def dailyTick (cfg : ServerConfigJson) (ver : String) (now : Nat) : List Action :=
  if isSharingEnabled cfg then
    [Action.collectFeatureMetrics (reportFeatureMetrics cfg ver now)]
  else []

/-- The two protocol modules `postMetrics` can pick:
`https` (the initial value of `requestModule`) or `http`. -/
inductive RequestModule where
  | http : RequestModule
  | https : RequestModule
deriving DecidableEq

/-- Models `new URL(serviceUrl).protocol` for a URL with the given (already
normalized, lower-case) scheme: the WHATWG `protocol` getter returns the scheme
followed by a colon (for example `"http:"` for an `http://` URL). -/
def urlProtocol (scheme : String) : String := scheme ++ ":"

/-- Embeds the module selection in `postMetrics`: `requestModule` starts as
`https` and is changed to `http` when `url.protocol === 'http'`. -/
def selectRequestModule (scheme : String) : RequestModule :=
  if urlProtocol scheme = "http" then RequestModule.http else RequestModule.https

/-- Models the JavaScript `String.prototype.length` of `reportJson`: the number
of UTF-16 code units (characters above the Basic Multilingual Plane count as a
surrogate pair, i.e. two units). -/
def utf16Length (s : String) : Nat :=
  (s.data.map (fun c => if c.toNat < 65536 then 1 else 2)).sum

/-- The request options object built by `postMetrics`. -/
structure HttpRequestOptions where
  hostname : String
  path : String
  contentType : String
  contentLength : Nat
  method : String
deriving DecidableEq

/-- Embeds the `options` literal of `postMetrics`: `Content-Type` is
`application/json` and `Content-Length` is `reportJson.length` (UTF-16 code
units). -/
def postMetricsRequest (hostname urlPath reportJson : String) : HttpRequestOptions :=
  { hostname := hostname
    path := urlPath
    contentType := "application/json"
    contentLength := utf16Length reportJson
    method := "POST" }

/-- The request calls `postMetrics` issues: exactly one `requestModule.request`
with the options above (there is no retry loop in the source). -/
def postMetricsAttempts (scheme hostname urlPath reportJson : String) :
    List (RequestModule × HttpRequestOptions) :=
  [(selectRequestModule scheme, postMetricsRequest hostname urlPath reportJson)]

/-- How the single request issued by `postMetrics` settles at the transport
level: a response with a status code, or an `error` event before any response. -/
inductive TransportEvent where
  | response : Nat → TransportEvent
  | networkError : String → TransportEvent
deriving DecidableEq

/-- How the promise returned by `postMetrics` settles. -/
inductive PostOutcome where
  | resolved : PostOutcome
  | rejectedStatus : Nat → PostOutcome
  | rejectedError : String → PostOutcome
deriving DecidableEq

/-- Embeds the promise executor of `postMetrics`: resolve when
`statusCode >= 200 && statusCode < 300`, otherwise reject with an error naming
the status code; a request `error` event rejects with the underlying error. -/
def postMetricsOutcome : TransportEvent → PostOutcome
  | TransportEvent.response statusCode =>
    if 200 ≤ statusCode ∧ statusCode < 300 then PostOutcome.resolved
    else PostOutcome.rejectedStatus statusCode
  | TransportEvent.networkError e => PostOutcome.rejectedError e

/-! Helper lemmas. -/

/-- The filtering loop is the filter-then-map of the per-entry predicate. -/
theorem buildUserReports_eq (toMetricsId : String → Option String)
    (usage : List KeyUsage) :
    buildUserReports toMetricsId usage
      = (usage.filter
          (fun ku => ku.inboundBytes != 0 && !hasSanctionedCountry ku.countries)).map
          (toUserReport toMetricsId) := by
  induction usage with
  | nil => rfl
  | cons ku rest ih =>
    by_cases h0 : ku.inboundBytes = 0
    · simp [buildUserReports, List.filter_cons, h0, ih]
    · by_cases hs : hasSanctionedCountry ku.countries
      · simp [buildUserReports, List.filter_cons, h0, hs, ih]
      · simp [buildUserReports, List.filter_cons, h0, hs, ih]

/-! Claim theorems. -/

/-- C1 counterexample: the snapshot entry for key `a` has positive bytes and the
non-sanctioned country `US` in its list (alongside `KP`), so by the claim it
should appear in the report's `userReports`; the code produces an empty
`userReports` for this snapshot. -/
theorem sanctioned_filter_counterexample :
    (1000 ≠ 0 ∧ "US" ∈ (["US", "KP"] : List String) ∧ "US" ∉ SANCTIONED_COUNTRIES)
    ∧ (reportServerUsageMetrics
        { serverId := "server-1", metricsEnabled := some true, accessKeyDataLimit := none }
        (fun _ => some "uid-a")
        { reportStartTimestampMs := 0 } 3600000
        [{ accessKeyId := "a", countries := ["US", "KP"], inboundBytes := 1000 }]
      ).report.userReports = [] := by
  decide

/-- C1 (amended): an entry of the usage snapshot is suppressed exactly when its
bytes are zero or at least one of its countries is sanctioned; equivalently, a
row belongs to the built `userReports` iff it comes from a snapshot entry with
nonzero bytes none of whose countries is in the sanctioned set. -/
theorem mem_buildUserReports_iff (toMetricsId : String → Option String)
    (usage : List KeyUsage) (r : HourlyUserMetricsReportJson) :
    r ∈ buildUserReports toMetricsId usage ↔
      ∃ ku, ku ∈ usage ∧ ku.inboundBytes ≠ 0
        ∧ hasSanctionedCountry ku.countries = false
        ∧ r = toUserReport toMetricsId ku := by
  rw [buildUserReports_eq]
  simp only [List.mem_map, List.mem_filter, Bool.and_eq_true, bne_iff_ne, ne_eq,
    Bool.not_eq_true']
  constructor
  · rintro ⟨ku, ⟨hmem, h0, hs⟩, hr⟩
    exact ⟨ku, hmem, h0, hs, hr.symm⟩
  · rintro ⟨ku, hmem, h0, hs, hr⟩
    exact ⟨ku, ⟨hmem, h0, hs⟩, hr.symm⟩

/-- C6: no row of the hourly report built from any usage snapshot carries
`bytesTransferred = 0`. -/
theorem report_has_no_zero_bytes (cfg : ServerConfigJson)
    (toMetricsId : String → Option String) (st : PublisherState) (now : Nat)
    (usage : List KeyUsage) :
    ((reportServerUsageMetrics cfg toMetricsId st now usage).report.userReports).all
      (fun r => r.bytesTransferred != 0) = true := by
  show ((buildUserReports toMetricsId usage).all _) = true
  rw [buildUserReports_eq, List.all_eq_true]
  intro r hr
  obtain ⟨ku, hku, hrk⟩ := List.mem_map.mp hr
  obtain ⟨-, h0⟩ := List.mem_filter.mp hku
  rw [Bool.and_eq_true] at h0
  subst hrk
  exact h0.1

/-- Concrete opted-in configuration used by witnesses. -/
def cfg0 : ServerConfigJson :=
  { serverId := "server-1", metricsEnabled := some true, accessKeyDataLimit := none }

/-- Concrete identity mapping used by witnesses. -/
def toId0 : String → Option String := fun _ => some "uid"

/-- Concrete initial publisher state used by witnesses. -/
def st0 : PublisherState := { reportStartTimestampMs := 0 }

/-- Concrete usage snapshot with one reportable entry, used by witnesses. -/
def usage0 : List KeyUsage :=
  [{ accessKeyId := "a", countries := ["US"], inboundBytes := 1000 }]

/-- Concrete usage snapshot whose only entry has zero bytes, used by witnesses. -/
def usageZero : List KeyUsage :=
  [{ accessKeyId := "c", countries := [], inboundBytes := 0 }]

/-- C2 counterexample: sharing is enabled, the fetch succeeds with a snapshot
that survives filtering, and the delivery to the collector rejects; the claim
says `reset()` is still invoked, but the tick makes no `resetUsage` call. -/
theorem reset_skipped_on_delivery_failure :
    Action.resetUsage ∉
      (hourlyTick
        { serverId := "server-1", metricsEnabled := some true, accessKeyDataLimit := none }
        (fun _ => some "uid-a") { reportStartTimestampMs := 0 } 3600000
        (Except.ok [{ accessKeyId := "a", countries := ["US"], inboundBytes := 100 }])
        (Except.error "metrics server request failed with status code 503")).actions := by
  decide

/-- C2 (amended): on an hourly tick, `reset()` is invoked exactly when sharing
is enabled, the usage fetch succeeds, and either no delivery was attempted (the
filtered report was empty) or the delivery succeeded; in particular a rejected
`collectServerUsageMetrics` skips the reset. -/
theorem resetUsage_mem_iff (cfg : ServerConfigJson)
    (toMetricsId : String → Option String) (st : PublisherState) (now : Nat)
    (fetch : Except String (List KeyUsage)) (deliver : Except String Unit) :
    Action.resetUsage ∈ (hourlyTick cfg toMetricsId st now fetch deliver).actions ↔
      (isSharingEnabled cfg = true ∧ ∃ usage, fetch = Except.ok usage ∧
        ((reportServerUsageMetrics cfg toMetricsId st now usage).deliveryAttempted = false
          ∨ deliver = Except.ok ())) := by
  unfold hourlyTick
  cases hen : isSharingEnabled cfg with
  | false => simp
  | true =>
    simp only [if_true]
    cases fetch with
    | error e => simp
    | ok usage =>
      cases hatt : (reportServerUsageMetrics cfg toMetricsId st now usage).deliveryAttempted with
      | false => simp [hatt]
      | true =>
        cases deliver with
        | error e => simp [hatt]
        | ok u => cases u; simp [hatt]

/-- C3: on an enabled hourly tick whose fetch succeeds, the publisher state
after the tick is the state produced by `reportServerUsageMetrics` whatever the
delivery outcome; that state's cursor equals the built report's `endUtcMs`; and
the next report built from that state starts exactly at the previous report's
`endUtcMs`. -/
theorem window_cursor_contiguity (cfg : ServerConfigJson)
    (toMetricsId : String → Option String) (st : PublisherState) (now : Nat)
    (usage : List KeyUsage) (deliver : Except String Unit) (now2 : Nat)
    (usage2 : List KeyUsage) (hen : isSharingEnabled cfg = true) :
    (hourlyTick cfg toMetricsId st now (Except.ok usage) deliver).newState
        = (reportServerUsageMetrics cfg toMetricsId st now usage).newState
    ∧ (reportServerUsageMetrics cfg toMetricsId st now usage
        ).newState.reportStartTimestampMs
        = (reportServerUsageMetrics cfg toMetricsId st now usage).report.endUtcMs
    ∧ (reportServerUsageMetrics cfg toMetricsId
          (reportServerUsageMetrics cfg toMetricsId st now usage).newState now2 usage2
        ).report.startUtcMs
        = (reportServerUsageMetrics cfg toMetricsId st now usage).report.endUtcMs := by
  refine ⟨?_, rfl, rfl⟩
  unfold hourlyTick
  simp only [hen, if_true]
  cases hatt : (reportServerUsageMetrics cfg toMetricsId st now usage).deliveryAttempted with
  | false => simp [hatt]
  | true => cases deliver <;> simp [hatt]

/-- C3 witness: the contiguity theorem instantiated at a concrete enabled
configuration, snapshot and a failing delivery. -/
theorem window_cursor_contiguity_witness :
    isSharingEnabled cfg0 = true
    ∧ ((hourlyTick cfg0 toId0 st0 3600000 (Except.ok usage0)
          (Except.error "503")).newState
        = (reportServerUsageMetrics cfg0 toId0 st0 3600000 usage0).newState
      ∧ (reportServerUsageMetrics cfg0 toId0 st0 3600000 usage0
          ).newState.reportStartTimestampMs
        = (reportServerUsageMetrics cfg0 toId0 st0 3600000 usage0).report.endUtcMs
      ∧ (reportServerUsageMetrics cfg0 toId0
            (reportServerUsageMetrics cfg0 toId0 st0 3600000 usage0).newState
            7200000 usage0).report.startUtcMs
        = (reportServerUsageMetrics cfg0 toId0 st0 3600000 usage0).report.endUtcMs) :=
  ⟨by decide,
    window_cursor_contiguity cfg0 toId0 st0 3600000 usage0 (Except.error "503")
      7200000 usage0 (by decide)⟩

/-- C5: after `stopSharing()` the persisted flag is `false`, so every hourly
tick leaves the state untouched and makes no call at all (no fetch, no
delivery, no reset), and every daily tick makes no call, whatever usage would
have been fetched or delivered. -/
theorem stopSharing_ticks_are_noops (cfg : ServerConfigJson)
    (toMetricsId : String → Option String) (st : PublisherState) (now : Nat)
    (fetch : Except String (List KeyUsage)) (deliver : Except String Unit)
    (ver : String) (now2 : Nat) :
    hourlyTick (stopSharing cfg) toMetricsId st now fetch deliver
        = { newState := st, actions := [] }
    ∧ dailyTick (stopSharing cfg) ver now2 = [] := by
  have h : isSharingEnabled (stopSharing cfg) = false := rfl
  exact ⟨by unfold hourlyTick; simp [h], by unfold dailyTick; simp [h]⟩

/-- C7: on an enabled hourly tick whose fetch succeeds but where no entry
survives filtering, the tick makes no `collectServerUsageMetrics` call while
the window cursor still advances to the tick's end timestamp. -/
theorem empty_report_skips_delivery (cfg : ServerConfigJson)
    (toMetricsId : String → Option String) (st : PublisherState) (now : Nat)
    (usage : List KeyUsage) (deliver : Except String Unit)
    (hen : isSharingEnabled cfg = true)
    (hempty : buildUserReports toMetricsId usage = []) :
    ((hourlyTick cfg toMetricsId st now (Except.ok usage) deliver).actions.all
      (fun a => !a.isCollectServerUsage)) = true
    ∧ (hourlyTick cfg toMetricsId st now (Except.ok usage) deliver
        ).newState.reportStartTimestampMs = now := by
  have hatt : (reportServerUsageMetrics cfg toMetricsId st now usage
      ).deliveryAttempted = false := by
    show (!(buildUserReports toMetricsId usage).isEmpty) = false
    rw [hempty]; rfl
  unfold hourlyTick
  simp [hen, hatt, hempty, Action.isCollectServerUsage, reportServerUsageMetrics]

/-- C7 witness: the theorem instantiated at the snapshot whose only entry has
zero bytes (end-to-end scenario 2). -/
theorem empty_report_skips_delivery_witness :
    (isSharingEnabled cfg0 = true ∧ buildUserReports toId0 usageZero = [])
    ∧ (((hourlyTick cfg0 toId0 st0 3600000 (Except.ok usageZero)
          (Except.ok ())).actions.all (fun a => !a.isCollectServerUsage)) = true
      ∧ (hourlyTick cfg0 toId0 st0 3600000 (Except.ok usageZero)
          (Except.ok ())).newState.reportStartTimestampMs = 3600000) :=
  ⟨⟨by decide, by decide⟩,
    empty_report_skips_delivery cfg0 toId0 st0 3600000 usageZero (Except.ok ())
      (by decide) (by decide)⟩

/-- C4: the WHATWG `protocol` getter always carries a trailing colon, so the
source's comparison `url.protocol === 'http'` never holds and `postMetrics`
selects the encrypted `https` module for every scheme, including plain
`http://` endpoints. -/
theorem selectRequestModule_always_https (scheme : String) :
    selectRequestModule scheme = RequestModule.https := by
  have h : urlProtocol scheme ≠ "http" := by
    intro h
    obtain ⟨l⟩ := scheme
    have h' : l ++ [':'] = ['h', 't', 't', 'p'] := congrArg String.data h
    have h2 := congrArg List.getLast? h'
    rw [List.getLast?_append_cons] at h2
    simp at h2
  unfold selectRequestModule
  simp [h]

/-- C8: the promise returned by `postMetrics` resolves exactly when the
response status code lies in `[200, 300)`; any other status rejects carrying
that status code, a transport-level error rejects carrying the underlying
error, and exactly one request attempt is made. -/
theorem postMetrics_outcome_spec (s : Nat) (e host urlPath body scheme : String) :
    (postMetricsOutcome (TransportEvent.response s) = PostOutcome.resolved
        ↔ (200 ≤ s ∧ s < 300))
    ∧ postMetricsOutcome (TransportEvent.response s)
        = (if 200 ≤ s ∧ s < 300 then PostOutcome.resolved
           else PostOutcome.rejectedStatus s)
    ∧ postMetricsOutcome (TransportEvent.networkError e) = PostOutcome.rejectedError e
    ∧ (postMetricsAttempts scheme host urlPath body).length = 1 := by
  refine ⟨?_, rfl, rfl, rfl⟩
  by_cases h : 200 ≤ s ∧ s < 300 <;> simp [postMetricsOutcome, h]

/-- Concrete serialized report body containing the non-ASCII character `é`
(one UTF-16 code unit, two UTF-8 bytes). -/
def jsonBody0 : String := "\x7b\"serverId\":\"café\"\x7d"

/-- C9: the request does carry `Content-Type: application/json`, but its
`Content-Length` is `reportJson.length` — 19 UTF-16 code units for this body —
while the UTF-8 serialization the socket sends is 20 bytes, so for a non-ASCII
body the header does not equal the byte length of the body. -/
theorem contentLength_is_not_byte_length :
    (postMetricsRequest "metrics.example.com" "/connections" jsonBody0).contentType
        = "application/json"
    ∧ (postMetricsRequest "metrics.example.com" "/connections" jsonBody0).contentLength = 19
    ∧ jsonBody0.utf8ByteSize = 20
    ∧ (postMetricsRequest "metrics.example.com" "/connections" jsonBody0).contentLength
        ≠ jsonBody0.utf8ByteSize := by
  decide

/-- C10: when the persisted configuration has no `metricsEnabled` field,
`isSharingEnabled()` returns `false` (the `|| false` collapses the absent
value), so sharing is disabled by default. -/
theorem isSharingEnabled_defaults_false (cfg : ServerConfigJson)
    (h : cfg.metricsEnabled = none) : isSharingEnabled cfg = false := by
  simp [isSharingEnabled, h]

/-- Concrete configuration with no `metricsEnabled` field. -/
def cfgAbsent : ServerConfigJson :=
  { serverId := "server-1", metricsEnabled := none, accessKeyDataLimit := none }

/-- C10 witness: the default-off theorem at a concrete configuration whose
`metricsEnabled` field is absent. -/
theorem isSharingEnabled_defaults_false_witness :
    cfgAbsent.metricsEnabled = none ∧ isSharingEnabled cfgAbsent = false :=
  ⟨rfl, isSharingEnabled_defaults_false cfgAbsent rfl⟩

end SharedMetrics
